import Mathlib

/-!
Verification of the `hal::actuator::rmd_drc` smart-servo driver
(libhal-actuator, `src/smart_servo/rmd/drc.cpp` and
`include/libhal-actuator/smart_servo/rmd/drc.hpp`).

The development shallowly embeds the driver:
machine integers become `Nat`/`Int` with explicit two's-complement
reinterpretation where the source casts, the float unit conversions of the
encoder become exact rational arithmetic, and the blocking send/poll
protocol becomes a pure state-passing function driven by an explicit
schedule of inbound frames and a fuel-style timeout budget.
-/

namespace RmdDrc

/-- Two's-complement reinterpretation of the low `w` bits of a natural
number, as performed by the C++ `static_cast` to a signed integer type of
width `w` (well defined and modular since C++20, the dialect of this
repository). -/
def toSigned (w n : Nat) : Int :=
  if n % 2 ^ w < 2 ^ (w - 1) then (n % 2 ^ w : Int) else (n % 2 ^ w : Int) - 2 ^ w

/-- C++ `static_cast<std::int8_t>` of a non-negative value. -/
def toInt8 (n : Nat) : Int := toSigned 8 n

/-- C++ `static_cast<std::int16_t>` of a non-negative value. -/
def toInt16 (n : Nat) : Int := toSigned 16 n

/-- C++ `static_cast<std::int32_t>`-style reinterpretation of a 32-bit
unsigned value. -/
def toInt32 (n : Nat) : Int := toSigned 32 n

/-- C++ `static_cast<std::int64_t>` applied to an unsigned accumulator. -/
def toInt64 (n : Nat) : Int := toSigned 64 n

/-- One fixed 8-byte CAN payload, `std::array<hal::byte, 8>` in the source.
Each field holds one byte; well-formedness (`Payload.wf`) records the
`hal::byte` range `< 256`. -/
structure Payload where
  b0 : Nat
  b1 : Nat
  b2 : Nat
  b3 : Nat
  b4 : Nat
  b5 : Nat
  b6 : Nat
  b7 : Nat
deriving DecidableEq

/-- All bytes lie in the `hal::byte` (`std::uint8_t`) range. -/
def Payload.wf (p : Payload) : Prop :=
  p.b0 < 256 ∧ p.b1 < 256 ∧ p.b2 < 256 ∧ p.b3 < 256 ∧
  p.b4 < 256 ∧ p.b5 < 256 ∧ p.b6 < 256 ∧ p.b7 < 256

instance (p : Payload) : Decidable p.wf := by
  unfold Payload.wf
  infer_instance

/-- One CAN frame, `hal::can::message_t`: bus identifier, payload length,
and the 8-byte payload array. -/
structure message_t where
  id : Nat
  length : Nat
  payload : Payload
deriving DecidableEq

/-- Opcode `rmd_drc::read::multi_turns_angle` (drc.hpp). -/
def read.multi_turns_angle : Nat := 0x92

/-- Opcode `rmd_drc::read::status_1_and_error_flags` (drc.hpp). -/
def read.status_1_and_error_flags : Nat := 0x9A

/-- Opcode `rmd_drc::read::status_2` (drc.hpp). -/
def read.status_2 : Nat := 0x9C

/-- Opcode `rmd_drc::actuate::speed` (drc.hpp). -/
def actuate.speed : Nat := 0xA2

/-- Opcode `rmd_drc::actuate::position_2` (drc.hpp). -/
def actuate.position_2 : Nat := 0xA4

/-- Opcode `rmd_drc::system::clear_error_flag` (drc.hpp). -/
def system.clear_error_flag : Nat := 0x9B

/-- Opcode `rmd_drc::system::off` (drc.hpp). -/
def system.off : Nat := 0x80

/-- Opcode `rmd_drc::system::stop` (drc.hpp). -/
def system.stop : Nat := 0x81

/-- Opcode `rmd_drc::system::running` (drc.hpp). -/
def system.running : Nat := 0x88

/-- The driver's telemetry state `rmd_drc::feedback_t` (drc.hpp).
`message_number` is `std::uint32_t`; the raw fields are
`std::int64_t` / `std::int16_t` / `std::int8_t` / `std::uint8_t` as in the
source, embedded as `Int` (the decoders below only ever store values of
the right range) and `Nat` for the error bitmask. -/
structure feedback_t where
  message_number : Nat
  raw_multi_turn_angle : Int
  raw_current : Int
  raw_speed : Int
  raw_volts : Int
  encoder : Int
  raw_motor_temperature : Int
  raw_error_state : Nat
deriving DecidableEq

/-- Zero-initialized feedback state, `m_feedback{}` in the constructor. -/
def feedback_t.init : feedback_t :=
  { message_number := 0
    raw_multi_turn_angle := 0
    raw_current := 0
    raw_speed := 0
    raw_volts := 0
    encoder := 0
    raw_motor_temperature := 0
    raw_error_state := 0 }

/-- Modelled from the spec: the constant
`over_temperature_protection_tripped_mask` lives in `drc_constants.hpp`,
which is not under `src/`; neither the spec nor `src/` pins its bit
position (the spec's section 9 leaves it an open question).  The concrete
value is a placeholder — the only fact used below is that BOTH accessors
in drc.cpp (lines 76-84) read this one shared constant. -/
def over_temperature_protection_tripped_mask : Nat := 0x08

/-- Accessor `rmd_drc::feedback_t::over_voltage_protection_tripped`
(drc.cpp lines 76-79): `raw_error_state & over_temperature_protection_tripped_mask`
converted to `bool`. -/
def feedback_t.over_voltage_protection_tripped (f : feedback_t) : Bool :=
  f.raw_error_state &&& over_temperature_protection_tripped_mask ≠ 0

/-- Accessor `rmd_drc::feedback_t::over_temperature_protection_tripped`
(drc.cpp lines 81-84): the body is byte-for-byte the same expression as the
over-voltage accessor. -/
def feedback_t.over_temperature_protection_tripped (f : feedback_t) : Bool :=
  f.raw_error_state &&& over_temperature_protection_tripped_mask ≠ 0

/-- Modelled semantics of the external libhal-util
`hal::bit_value(0U).insert<byte_m<k>>(data[k+1])...to<std::int64_t>()`
chain (drc.cpp lines 226-234): each `insert<byte_m<k>>` masks its argument
to 8 bits and places it at bit position `8*k` of a zero-initialized
unsigned accumulator; the disjoint byte fields make bitwise-or coincide
with addition.  The accumulator is modelled 64 bits wide, the widest
consistent reading (the literal `0U` deduces a 32-bit accumulator, for
which the inserts at byte positions 4-6 overflow the type; the model is
deliberately charitable to the source). -/
def stitch7 (b1 b2 b3 b4 b5 b6 b7 : Nat) : Nat :=
  b1 % 256 + b2 % 256 * 2 ^ 8 + b3 % 256 * 2 ^ 16 + b4 % 256 * 2 ^ 24 +
  b5 % 256 * 2 ^ 32 + b6 % 256 * 2 ^ 40 + b7 % 256 * 2 ^ 48

/-- Frame handler `rmd_drc::operator()(can::message_t const&)`
(drc.cpp lines 193-240): unconditionally increment `message_number`
(a `std::uint32_t`, hence modulo `2^32`), reject frames of wrong length or
bus identifier, then dispatch on payload byte 0. -/
def on_message (m_device_id : Nat) (f : feedback_t) (p_message : message_t) :
    feedback_t :=
  let f := { f with message_number := (f.message_number + 1) % 2 ^ 32 }
  if p_message.length ≠ 8 ∨ p_message.id ≠ m_device_id then
    f
  else
    let d := p_message.payload
    if d.b0 = read.status_2 ∨ d.b0 = actuate.speed ∨ d.b0 = actuate.position_2 then
      { f with
        raw_motor_temperature := toInt8 d.b1
        raw_current := toInt16 ((d.b3 <<< 8) ||| d.b2)
        raw_speed := toInt16 ((d.b5 <<< 8) ||| d.b4)
        encoder := toInt16 ((d.b7 <<< 8) ||| d.b6) }
    else if d.b0 = read.status_1_and_error_flags then
      { f with
        raw_motor_temperature := toInt8 d.b1
        raw_volts := toInt16 ((d.b4 <<< 8) ||| d.b3)
        raw_error_state := d.b7 }
    else if d.b0 = read.multi_turns_angle then
      { f with
        raw_multi_turn_angle :=
          toInt64 (stitch7 d.b1 d.b2 d.b3 d.b4 d.b5 d.b6 d.b7) }
    else
      f

/-- Constant `dps_per_rpm = 1.0f / 1.0_deg_per_sec` (drc.cpp line 36).
libhal's canonical angular-velocity unit is rpm and its `1.0_deg_per_sec`
literal denotes 1 degree-per-second expressed in rpm, i.e. `1/6`; the
reciprocal is exactly `6` (both are exactly representable computations on
these values). -/
def dps_per_rpm : ℚ := 6

/-- Modelled from the spec: `dps_per_lsb_speed` lives in
`drc_constants.hpp`, which is not under `src/`.  The spec's prose value
("1 °/s per LSB") is inconsistent with `src/` itself, which is the
authority: `feedback_t::angle()` (drc.cpp line 73) scales
`raw_multi_turn_angle` — documented as 0.01°/LSB in drc.hpp — by this
constant, and the repository's unit tests encode 10 rpm at gear ratio 6 as
36000 LSB (`drc_v2.test.cpp` lines 161-163).  Both pin the value `1/100`. -/
def dps_per_lsb_speed : ℚ := 1 / 100

/-- Modelled from the spec: `dps_per_lsb_angle` lives in
`drc_constants.hpp`, which is not under `src/`.  It is the spec's
"angle-mode LSB scale"; the repository's unit tests pin it to 1 °/s per
LSB (`drc_v2.test.cpp`: 10 rpm at gear ratio 6 encodes as `0x0168` = 360). -/
def dps_per_lsb_angle : ℚ := 1

/-- Constant `deg_per_lsb = 0.01f` local to `position_control`
(drc.cpp line 147). -/
def deg_per_lsb : ℚ := 1 / 100

/-- Modelled from the spec: `bounds_check<std::int32_t>` lives in
`common.hpp`, which is not under `src/`.  Per the spec's words ("round to
a 32-bit signed integer; fail (bounds error) if the result exceeds the
32-bit signed range"): round, then range-check against the signed 32-bit
range; `none` is the bounds error (the thrown exception). -/
def bounds_check (x : ℚ) : Option Int :=
  if -(2 ^ 31) ≤ round x ∧ round x ≤ 2 ^ 31 - 1 then some (round x) else none

/-- Encoder helper `rpm_to_drc_speed` (drc.cpp lines 32-41):
`(p_rpm * p_gear_ratio * dps_per_rpm) / p_dps_per_lsb`, bounds-checked
into a signed 32-bit value. -/
def rpm_to_drc_speed (p_rpm p_gear_ratio p_dps_per_lsb : ℚ) : Option Int :=
  bounds_check (p_rpm * p_gear_ratio * dps_per_rpm / p_dps_per_lsb)

/-- Little-endian byte extraction `(v >> (8*i)) & 0xFF` on a signed 32-bit
value (drc.cpp lines 138-141 and 156-161): the C++ arithmetic right shift
is floor division, which for a positive power-of-two divisor is `Int`
division `/`, and masking with `0xFF` is the non-negative remainder `%`. -/
def le_byte (v : Int) (i : Nat) : Nat := ((v / 2 ^ (8 * i)) % 256).toNat

/-- Command encoder `rmd_drc::velocity_control` (drc.cpp lines 128-143):
payload byte 0 is the `actuate::speed` opcode, bytes 1-3 are zero and
bytes 4-7 carry the converted speed little-endian; `none` when the
conversion raises the bounds error (no frame is built). -/
def velocity_control (m_gear_ratio p_rpm : ℚ) : Option Payload :=
  match rpm_to_drc_speed p_rpm m_gear_ratio dps_per_lsb_speed with
  | none => none
  | some speed_data =>
    some
      { b0 := actuate.speed
        b1 := 0x00
        b2 := 0x00
        b3 := 0x00
        b4 := le_byte speed_data 0
        b5 := le_byte speed_data 1
        b6 := le_byte speed_data 2
        b7 := le_byte speed_data 3 }

/-- Command encoder `rmd_drc::position_control` (drc.cpp lines 145-163):
the target angle is converted by `(p_angle * m_gear_ratio) / deg_per_lsb`
and bounds-checked first, then the cap speed is converted with the
angle-mode LSB scale; byte 0 is the `actuate::position_2` opcode, byte 1
is zero, bytes 2-3 carry the LOW 16 BITS of the 32-bit speed value
little-endian, bytes 4-7 the 32-bit angle little-endian. -/
def position_control (m_gear_ratio p_angle p_rpm : ℚ) : Option Payload :=
  match bounds_check (p_angle * m_gear_ratio / deg_per_lsb) with
  | none => none
  | some angle_data =>
    match rpm_to_drc_speed p_rpm m_gear_ratio dps_per_lsb_angle with
    | none => none
    | some speed_data =>
      some
        { b0 := actuate.position_2
          b1 := 0x00
          b2 := le_byte speed_data 0
          b3 := le_byte speed_data 1
          b4 := le_byte angle_data 0
          b5 := le_byte angle_data 1
          b6 := le_byte angle_data 2
          b7 := le_byte angle_data 3 }

/-- Payload built by `rmd_drc::system_control` (drc.cpp lines 179-191):
the system opcode followed by seven zero bytes. -/
def system_control_frame (p_system_command : Nat) : Payload :=
  { b0 := p_system_command
    b1 := 0x00
    b2 := 0x00
    b3 := 0x00
    b4 := 0x00
    b5 := 0x00
    b6 := 0x00
    b7 := 0x00 }

/-- Payload built by `rmd_drc::feedback_request` (drc.cpp lines 165-177):
the read opcode followed by seven zero bytes. -/
def feedback_request_frame (p_command : Nat) : Payload :=
  system_control_frame p_command

/-- The two error kinds of the driver (spec section 7): a transport error
thrown by the underlying `bus().send`, and `hal::timed_out` thrown by the
timeout token. -/
inductive drc_error
  | transport
  | timed_out
deriving DecidableEq

/-- Sequential application of the frame handler to a burst of inbound
frames delivered by the transport's dispatch-by-ID mechanism. -/
def deliver (m_device_id : Nat) (f : feedback_t) (ms : List message_t) :
    feedback_t :=
  ms.foldl (on_message m_device_id) f

/-- The wait loop of `rmd_drc::send` (drc.cpp lines 118-125), embedded as
a pure function.  The asynchronous environment is an explicit schedule:
`sched.headD []` is the burst of inbound frames the transport delivers
before the loop's next check of `message_number`, and `budget` is the
number of `timeout()` polls the token created from `m_max_response_time`
answers before the configured maximum response duration elapses and it
throws `hal::timed_out` (the standard fuel embedding of a timeout token).
Each iteration first observes the feedback state after the delivered
frames, returns success as soon as `message_number` differs from `orig`,
and otherwise consults the timeout token. -/
def poll_for_response (m_device_id orig : Nat) (f : feedback_t)
    (sched : List (List message_t)) (budget : Nat) :
    feedback_t × Option drc_error :=
  let f1 := deliver m_device_id f (sched.headD [])
  if f1.message_number ≠ orig then
    (f1, none)
  else
    match budget with
    | 0 => (f1, some drc_error.timed_out)
    | Nat.succ b => poll_for_response m_device_id orig f1 sched.tail b

/-- Helper `rmd_drc::send` (drc.cpp lines 110-126): capture the current
`message_number`, transmit the frame on the bus (which can fail with a
transport error, `transmit_ok = false`), then poll until the message
number changes or the timeout elapses.  The first component is the list
of payloads handed to `bus().send` (the transport records the frame even
when its send throws, as the repository's mock-bus tests do); the second
is the feedback state afterwards; the third is the propagated error, if
any. -/
def send (m_device_id : Nat) (f : feedback_t) (p_payload : Payload)
    (transmit_ok : Bool) (sched : List (List message_t)) (budget : Nat) :
    List Payload × feedback_t × Option drc_error :=
  let original_message_number := f.message_number
  if transmit_ok then
    let r := poll_for_response m_device_id original_message_number f sched budget
    ([p_payload], r.1, r.2)
  else
    ([p_payload], f, some drc_error.transport)

/-- Constructor `rmd_drc::rmd_drc` (drc.cpp lines 91-108): after
registering the handler and zero-initializing the feedback state it calls
`system_control(system::off)` and then `system_control(system::running)`.
A thrown error aborts construction immediately (C++ constructor
semantics): the second command is reached only if the first fully
succeeds.  Components as in `send`: payloads handed to the bus, final
feedback state, propagated error. -/
def construct (p_device_id : Nat) (ok1 ok2 : Bool)
    (sched1 sched2 : List (List message_t)) (budget : Nat) :
    List Payload × feedback_t × Option drc_error :=
  match send p_device_id feedback_t.init (system_control_frame system.off)
      ok1 sched1 budget with
  | (t1, f1, some e) => (t1, f1, some e)
  | (t1, f1, none) =>
    match send p_device_id f1 (system_control_frame system.running)
        ok2 sched2 budget with
    | (t2, f2, r) => (t1 ++ t2, f2, r)

/-! Bridge lemmas connecting the embedded byte operations to the
little-endian arithmetic used in the claims. -/

/-- For an 8-bit low operand, the C++ `(hi << 8) | lo` coincides with
`2^8 * hi + lo`: the bit ranges are disjoint. -/
theorem shiftLeft_lor_byte (a b : Nat) (hb : b < 2 ^ 8) :
    (a <<< 8) ||| b = 2 ^ 8 * a + b := by
  apply Nat.eq_of_testBit_eq
  intro i
  rw [Nat.testBit_lor, Nat.testBit_shiftLeft, Nat.testBit_mul_pow_two_add a hb i]
  by_cases h : i < 8
  · simp [h, Nat.not_le_of_lt h]
  · have hb8 : b.testBit i = false :=
      Nat.testBit_lt_two_pow (lt_of_lt_of_le hb
        (Nat.pow_le_pow_right (by norm_num) (Nat.le_of_not_lt h)))
    simp [h, Nat.le_of_not_lt h, hb8]

/-- The four extracted little-endian bytes of a signed 32-bit value
reassemble to its unsigned 32-bit representation. -/
theorem le_byte_reassemble (v : Int) :
    le_byte v 0 + 2 ^ 8 * le_byte v 1 + 2 ^ 16 * le_byte v 2 +
      2 ^ 24 * le_byte v 3 = ((v % 2 ^ 32)).toNat := by
  show ((v / 2 ^ (8 * 0)) % 256).toNat + 2 ^ 8 * ((v / 2 ^ (8 * 1)) % 256).toNat +
    2 ^ 16 * ((v / 2 ^ (8 * 2)) % 256).toNat +
    2 ^ 24 * ((v / 2 ^ (8 * 3)) % 256).toNat = ((v % 2 ^ 32)).toNat
  norm_num
  omega

/-- The two low extracted bytes of a signed 32-bit value reassemble to its
value reduced modulo `2^16`. -/
theorem le_byte_reassemble16 (v : Int) :
    le_byte v 0 + 2 ^ 8 * le_byte v 1 = ((v % 2 ^ 16)).toNat := by
  show ((v / 2 ^ (8 * 0)) % 256).toNat + 2 ^ 8 * ((v / 2 ^ (8 * 1)) % 256).toNat
    = ((v % 2 ^ 16)).toNat
  norm_num
  omega

/-- Reading the unsigned 32-bit representation back as a signed 32-bit
value recovers any value of the signed 32-bit range. -/
theorem toInt32_emod_toNat (v : Int) (h1 : -(2 ^ 31) ≤ v) (h2 : v ≤ 2 ^ 31 - 1) :
    toInt32 ((v % 2 ^ 32)).toNat = v := by
  unfold toInt32 toSigned
  split <;> omega

/-- Evaluation rule for `bounds_check` at an in-range integer value. -/
theorem bounds_check_eq_some {x : ℚ} {n : ℤ} (hx : x = (n : ℚ))
    (h1 : -(2 ^ 31) ≤ n) (h2 : n ≤ 2 ^ 31 - 1) :
    bounds_check x = some n := by
  subst hx
  unfold bounds_check
  rw [round_intCast]
  exact if_pos ⟨h1, h2⟩

/-- Evaluation rule for `bounds_check` at an out-of-range integer value. -/
theorem bounds_check_eq_none {x : ℚ} {n : ℤ} (hx : x = (n : ℚ))
    (h : n < -(2 ^ 31) ∨ 2 ^ 31 - 1 < n) :
    bounds_check x = none := by
  subst hx
  unfold bounds_check
  rw [round_intCast]
  apply if_neg
  omega

/-! Claim theorems. -/

/-- C9: for every feedback state the accessors
`over_voltage_protection_tripped()` and
`over_temperature_protection_tripped()` return the same boolean, because
both read the identical bit position of the error bitmask (the one shared
mask constant). -/
theorem over_voltage_eq_over_temperature (f : feedback_t) :
    f.over_voltage_protection_tripped = f.over_temperature_protection_tripped :=
  rfl

/-- C7: for every inbound frame delivered to the frame handler the
`message_number` counter advances by exactly one — as the `std::uint32_t`
increment, i.e. modulo `2^32`, and literally by one whenever no wraparound
occurs — regardless of the frame's length, bus identifier or opcode; the
increment is unconditional (no hypothesis on the frame). -/
theorem message_number_increment (m_device_id : Nat) (f : feedback_t)
    (m : message_t) :
    (on_message m_device_id f m).message_number = (f.message_number + 1) % 2 ^ 32 ∧
    (f.message_number < 2 ^ 32 - 1 →
      (on_message m_device_id f m).message_number = f.message_number + 1) := by
  have h : (on_message m_device_id f m).message_number =
      (f.message_number + 1) % 2 ^ 32 := by
    simp only [on_message]
    split_ifs <;> rfl
  exact ⟨h, fun hlt => by rw [h]; omega⟩

/-- Witness for C7 at a malformed frame (length 3): the counter still
advances from 0 to 1. -/
theorem message_number_increment_witness :
    (on_message 0x140 feedback_t.init
      ⟨0x140, 3, ⟨0x00, 0x00, 0x00, 0x00, 0x00, 0x00, 0x00, 0x00⟩⟩).message_number = 1 := by
  have h := (message_number_increment 0x140 feedback_t.init
    ⟨0x140, 3, ⟨0x00, 0x00, 0x00, 0x00, 0x00, 0x00, 0x00, 0x00⟩⟩).2 (by decide)
  simpa [feedback_t.init] using h

/-- C8: a frame of wrong length, of wrong bus identifier, or whose leading
opcode byte is none of the five recognized response kinds leaves every
telemetry field other than `message_number` exactly unchanged. -/
theorem unrecognized_frame_preserves_fields (m_device_id : Nat)
    (f : feedback_t) (m : message_t)
    (h : m.length ≠ 8 ∨ m.id ≠ m_device_id ∨
      (m.payload.b0 ≠ read.multi_turns_angle ∧
       m.payload.b0 ≠ read.status_1_and_error_flags ∧
       m.payload.b0 ≠ read.status_2 ∧
       m.payload.b0 ≠ actuate.speed ∧
       m.payload.b0 ≠ actuate.position_2)) :
    (on_message m_device_id f m).raw_multi_turn_angle = f.raw_multi_turn_angle ∧
    (on_message m_device_id f m).raw_current = f.raw_current ∧
    (on_message m_device_id f m).raw_speed = f.raw_speed ∧
    (on_message m_device_id f m).raw_volts = f.raw_volts ∧
    (on_message m_device_id f m).encoder = f.encoder ∧
    (on_message m_device_id f m).raw_motor_temperature = f.raw_motor_temperature ∧
    (on_message m_device_id f m).raw_error_state = f.raw_error_state := by
  simp only [on_message]
  split_ifs with h1 h2 h3 h4
  · exact ⟨rfl, rfl, rfl, rfl, rfl, rfl, rfl⟩
  · exfalso; push_neg at h1; tauto
  · exfalso; push_neg at h1; tauto
  · exfalso; push_neg at h1; tauto
  · exact ⟨rfl, rfl, rfl, rfl, rfl, rfl, rfl⟩

/-- Witness for C8 at a well-formed frame with the unrecognized opcode
`0x55`: the telemetry fields of a non-trivial state survive. -/
theorem unrecognized_frame_preserves_fields_witness :
    (on_message 0x140 ⟨7, 1, 2, 3, 4, 5, 6, 9⟩
        ⟨0x140, 8, ⟨0x55, 0x11, 0x22, 0x33, 0x44, 0x55, 0x66, 0x77⟩⟩).raw_current = 2 ∧
    (on_message 0x140 ⟨7, 1, 2, 3, 4, 5, 6, 9⟩
        ⟨0x140, 8, ⟨0x55, 0x11, 0x22, 0x33, 0x44, 0x55, 0x66, 0x77⟩⟩).raw_error_state = 9 := by
  have h := unrecognized_frame_preserves_fields 0x140 ⟨7, 1, 2, 3, 4, 5, 6, 9⟩
    ⟨0x140, 8, ⟨0x55, 0x11, 0x22, 0x33, 0x44, 0x55, 0x66, 0x77⟩⟩ (by decide)
  exact ⟨h.2.1, h.2.2.2.2.2.2⟩

/-- C4: every accepted 8-byte frame for this device whose byte 0 is the
`status_2` opcode `0x9C`, the echoed `speed` opcode `0xA2` or the echoed
`position_2` opcode `0xA4` stores byte 1 as the signed 8-bit temperature,
bytes 2-3 as the signed little-endian 16-bit current, bytes 4-5 as the
speed and bytes 6-7 as the encoder count. -/
theorem status2_decode (m_device_id : Nat) (f : feedback_t) (m : message_t)
    (hlen : m.length = 8) (hid : m.id = m_device_id)
    (hop : m.payload.b0 = read.status_2 ∨ m.payload.b0 = actuate.speed ∨
      m.payload.b0 = actuate.position_2)
    (hwf : m.payload.wf) :
    (on_message m_device_id f m).raw_motor_temperature = toInt8 m.payload.b1 ∧
    (on_message m_device_id f m).raw_current =
      toInt16 (m.payload.b2 + 2 ^ 8 * m.payload.b3) ∧
    (on_message m_device_id f m).raw_speed =
      toInt16 (m.payload.b4 + 2 ^ 8 * m.payload.b5) ∧
    (on_message m_device_id f m).encoder =
      toInt16 (m.payload.b6 + 2 ^ 8 * m.payload.b7) := by
  obtain ⟨h0, h1, h2, h3, h4, h5, h6, h7⟩ := hwf
  unfold on_message
  rw [if_neg (by simp [hlen, hid]), if_pos hop]
  refine ⟨rfl, ?_, ?_, ?_⟩ <;>
  · show toInt16 _ = toInt16 _
    rw [shiftLeft_lor_byte _ _ (by omega)]
    congr 1
    omega

/-- Witness for C4: the payload `9C 11 22 33 44 55 66 77` decodes to
temperature `0x11`, current `0x3322`, speed `0x5544`, encoder `0x7766`. -/
theorem status2_decode_witness :
    ((on_message 0x140 feedback_t.init
        ⟨0x140, 8, ⟨0x9C, 0x11, 0x22, 0x33, 0x44, 0x55, 0x66, 0x77⟩⟩).raw_motor_temperature
      = toInt8 0x11 ∧
     (on_message 0x140 feedback_t.init
        ⟨0x140, 8, ⟨0x9C, 0x11, 0x22, 0x33, 0x44, 0x55, 0x66, 0x77⟩⟩).raw_current
      = toInt16 (0x22 + 2 ^ 8 * 0x33) ∧
     (on_message 0x140 feedback_t.init
        ⟨0x140, 8, ⟨0x9C, 0x11, 0x22, 0x33, 0x44, 0x55, 0x66, 0x77⟩⟩).raw_speed
      = toInt16 (0x44 + 2 ^ 8 * 0x55) ∧
     (on_message 0x140 feedback_t.init
        ⟨0x140, 8, ⟨0x9C, 0x11, 0x22, 0x33, 0x44, 0x55, 0x66, 0x77⟩⟩).encoder
      = toInt16 (0x66 + 2 ^ 8 * 0x77)) ∧
    (on_message 0x140 feedback_t.init
        ⟨0x140, 8, ⟨0x9C, 0x11, 0x22, 0x33, 0x44, 0x55, 0x66, 0x77⟩⟩).raw_motor_temperature
      = 0x11 ∧
    (on_message 0x140 feedback_t.init
        ⟨0x140, 8, ⟨0x9C, 0x11, 0x22, 0x33, 0x44, 0x55, 0x66, 0x77⟩⟩).raw_current
      = 0x3322 ∧
    (on_message 0x140 feedback_t.init
        ⟨0x140, 8, ⟨0x9C, 0x11, 0x22, 0x33, 0x44, 0x55, 0x66, 0x77⟩⟩).raw_speed
      = 0x5544 ∧
    (on_message 0x140 feedback_t.init
        ⟨0x140, 8, ⟨0x9C, 0x11, 0x22, 0x33, 0x44, 0x55, 0x66, 0x77⟩⟩).encoder
      = 0x7766 :=
  ⟨status2_decode 0x140 feedback_t.init
      ⟨0x140, 8, ⟨0x9C, 0x11, 0x22, 0x33, 0x44, 0x55, 0x66, 0x77⟩⟩
      rfl rfl (Or.inl rfl) (by decide),
    by decide, by decide, by decide, by decide⟩

/-- C5, evaluated at the failing input: a `multi_turns_angle` reply whose
top payload byte has its sign bit set (`92 00 00 00 00 00 00 80`) is
stored as the POSITIVE value `2^55`.  Bytes 1-7 are assembled
little-endian but only zero-extended into the stored 64-bit integer — the
cast of the unsigned accumulator never sign-extends the 56-bit signed
wire quantity, contradicting the spec's required sign extension (and this
is under the model's charitable 64-bit reading of the accumulator; the
literal `bit_value(0U)` accumulator is 32 bits wide and would drop bytes
5-7 entirely). -/
theorem multi_turn_angle_zero_extended :
    (on_message 0x140 feedback_t.init
        ⟨0x140, 8, ⟨0x92, 0x00, 0x00, 0x00, 0x00, 0x00, 0x00, 0x80⟩⟩).raw_multi_turn_angle
      = 2 ^ 55 ∧
    ¬ (on_message 0x140 feedback_t.init
        ⟨0x140, 8, ⟨0x92, 0x00, 0x00, 0x00, 0x00, 0x00, 0x00, 0x80⟩⟩).raw_multi_turn_angle
      < 0 := by
  decide

/-- C2 counterexample: at 10 rpm with gear ratio 6 the claim's stated
wire LSB scale of 1 °/s per LSB predicts the value 360 (little-endian
`68 01 00 00`) in bytes 4-7, but the driver transmits 36000
(`A0 8C 00 00`): the actual scale is 0.01 °/s per LSB, exactly as the
repository's own unit tests record (`drc_v2.test.cpp` lines 161-163). -/
theorem velocity_scale_counterexample :
    rpm_to_drc_speed 10 6 1 = some 360 ∧
    rpm_to_drc_speed 10 6 dps_per_lsb_speed = some 36000 ∧
    velocity_control 6 10 =
      some ⟨0xA2, 0x00, 0x00, 0x00, 0xA0, 0x8C, 0x00, 0x00⟩ ∧
    Payload.mk 0xA2 0x00 0x00 0x00 0xA0 0x8C 0x00 0x00 ≠
      ⟨0xA2, 0x00, 0x00, 0x00, 0x68, 0x01, 0x00, 0x00⟩ := by
  have h1 : rpm_to_drc_speed 10 6 1 = some 360 :=
    bounds_check_eq_some (by norm_num [dps_per_rpm]) (by norm_num) (by norm_num)
  have h2 : rpm_to_drc_speed 10 6 dps_per_lsb_speed = some 36000 :=
    bounds_check_eq_some (by norm_num [dps_per_rpm, dps_per_lsb_speed])
      (by norm_num) (by norm_num)
  refine ⟨h1, h2, ?_, by decide⟩
  unfold velocity_control
  rw [h2]
  decide

/-- C2 (amended: the wire LSB scale is 0.01 °/s per LSB, not 1): whenever
the conversion — rpm to °/s, times gear ratio, divided by the LSB scale,
rounded — fits the signed 32-bit range, the transmitted payload is the
velocity opcode `0xA2`, three zero bytes, and the little-endian signed
32-bit value; when the conversion is out of range, the bounds error is
raised and no frame is built. -/
theorem velocity_control_encoding (m_gear_ratio p_rpm : ℚ) :
    (∀ v : ℤ, rpm_to_drc_speed p_rpm m_gear_ratio dps_per_lsb_speed = some v →
      v = round (p_rpm * m_gear_ratio * dps_per_rpm / dps_per_lsb_speed) ∧
      -(2 ^ 31) ≤ v ∧ v ≤ 2 ^ 31 - 1 ∧
      velocity_control m_gear_ratio p_rpm =
        some ⟨actuate.speed, 0x00, 0x00, 0x00,
          le_byte v 0, le_byte v 1, le_byte v 2, le_byte v 3⟩ ∧
      le_byte v 0 + 2 ^ 8 * le_byte v 1 + 2 ^ 16 * le_byte v 2 +
        2 ^ 24 * le_byte v 3 = (v % 2 ^ 32).toNat ∧
      toInt32 ((v % 2 ^ 32).toNat) = v) ∧
    (rpm_to_drc_speed p_rpm m_gear_ratio dps_per_lsb_speed = none →
      velocity_control m_gear_ratio p_rpm = none) := by
  constructor
  · intro v hv
    have hd := hv
    unfold rpm_to_drc_speed bounds_check at hd
    split_ifs at hd with hcond
    obtain ⟨hc1, hc2⟩ := hcond
    injection hd with hd
    refine ⟨hd.symm, hd ▸ hc1, hd ▸ hc2, ?_, le_byte_reassemble v,
      toInt32_emod_toNat v (hd ▸ hc1) (hd ▸ hc2)⟩
    unfold velocity_control
    rw [hv]
  · intro hv
    unfold velocity_control
    rw [hv]

/-- Witness for C2 at 10 rpm, gear ratio 6 (in-range: value 36000) and at
`2^31` rpm (out of range: bounds error, no frame). -/
theorem velocity_control_encoding_witness :
    velocity_control 6 10 =
      some ⟨actuate.speed, 0x00, 0x00, 0x00,
        le_byte 36000 0, le_byte 36000 1, le_byte 36000 2, le_byte 36000 3⟩ ∧
    toInt32 (((36000 : ℤ) % 2 ^ 32).toNat) = 36000 ∧
    velocity_control 6 (2 ^ 31) = none := by
  have h : rpm_to_drc_speed 10 6 dps_per_lsb_speed = some 36000 :=
    bounds_check_eq_some (by norm_num [dps_per_rpm, dps_per_lsb_speed])
      (by norm_num) (by norm_num)
  have hbig : rpm_to_drc_speed (2 ^ 31) 6 dps_per_lsb_speed = none :=
    bounds_check_eq_none
      (n := 2 ^ 31 * 3600) (by norm_num [dps_per_rpm, dps_per_lsb_speed])
      (by norm_num)
  have h1 := (velocity_control_encoding 6 10).1 36000 h
  have h2 := (velocity_control_encoding 6 (2 ^ 31)).2 hbig
  exact ⟨h1.2.2.2.1, h1.2.2.2.2.2, h2⟩

/-- C3 counterexample: with target angle 45° and gear ratio 6 the
documented formula `(angle * gear_ratio) / 0.01` yields 27000 =
`0x00006978`, not `0x00016878` as the claim states, and the transmitted
bytes 4-7 are `78 69 00 00`, not `78 68 01 00` (this matches the
repository's unit test `drc_v2.test.cpp` lines 213-215). -/
theorem position_angle_45_counterexample :
    bounds_check ((45 : ℚ) * 6 / deg_per_lsb) = some 27000 ∧
    position_control 6 45 10 =
      some ⟨0xA4, 0x00, 0x68, 0x01, 0x78, 0x69, 0x00, 0x00⟩ ∧
    (27000 : ℤ) ≠ 0x00016878 ∧
    Payload.mk 0xA4 0x00 0x68 0x01 0x78 0x69 0x00 0x00 ≠
      ⟨0xA4, 0x00, 0x68, 0x01, 0x78, 0x68, 0x01, 0x00⟩ := by
  have ha : bounds_check ((45 : ℚ) * 6 / deg_per_lsb) = some 27000 :=
    bounds_check_eq_some (by norm_num [deg_per_lsb]) (by norm_num) (by norm_num)
  have hs : rpm_to_drc_speed 10 6 dps_per_lsb_angle = some 360 :=
    bounds_check_eq_some (by norm_num [dps_per_rpm, dps_per_lsb_angle])
      (by norm_num) (by norm_num)
  refine ⟨ha, ?_, by decide, by decide⟩
  unfold position_control
  rw [ha, hs]
  decide

/-- C3 (amended: the angle field is `0x00006978`): with target angle 45°
and gear ratio 6 the formula `(angle * gear_ratio) / 0.01` yields
27000 = `0x00006978`, so bytes 4-7 of the transmitted `position_control`
frame are the little-endian bytes `78 69 00 00` (cap speed 10 rpm as in
the repository's unit test). -/
theorem position_angle_45_encoding :
    round ((45 : ℚ) * 6 / deg_per_lsb) = 0x6978 ∧
    bounds_check ((45 : ℚ) * 6 / deg_per_lsb) = some 0x6978 ∧
    position_control 6 45 10 =
      some ⟨0xA4, 0x00, 0x68, 0x01, 0x78, 0x69, 0x00, 0x00⟩ ∧
    le_byte 0x6978 0 = 0x78 ∧ le_byte 0x6978 1 = 0x69 ∧
    le_byte 0x6978 2 = 0x00 ∧ le_byte 0x6978 3 = 0x00 := by
  have hval : (45 : ℚ) * 6 / deg_per_lsb = ((27000 : ℤ) : ℚ) := by
    norm_num [deg_per_lsb]
  have ha : bounds_check ((45 : ℚ) * 6 / deg_per_lsb) = some 27000 :=
    bounds_check_eq_some hval (by norm_num) (by norm_num)
  have hs : rpm_to_drc_speed 10 6 dps_per_lsb_angle = some 360 :=
    bounds_check_eq_some (by norm_num [dps_per_rpm, dps_per_lsb_angle])
      (by norm_num) (by norm_num)
  refine ⟨?_, ha, ?_, by decide, by decide, by decide, by decide⟩
  · rw [hval, round_intCast]
  · unfold position_control
    rw [ha, hs]
    decide

/-- C10: the cap speed of `position_control` is bounds-checked only
against the signed 32-bit range, but only its low 16 bits reach bytes 2-3
of the payload: for a converted value that fits 32 bits but not 16, no
error is raised and the transmitted 16-bit field is the value reduced
modulo `2^16`. -/
theorem position_speed_truncated (m_gear_ratio p_angle p_rpm : ℚ)
    (a v : ℤ)
    (ha : bounds_check (p_angle * m_gear_ratio / deg_per_lsb) = some a)
    (hv : rpm_to_drc_speed p_rpm m_gear_ratio dps_per_lsb_angle = some v)
    (hbig : v < -(2 ^ 15) ∨ 2 ^ 15 ≤ v) :
    position_control m_gear_ratio p_angle p_rpm =
      some ⟨actuate.position_2, 0x00, le_byte v 0, le_byte v 1,
        le_byte a 0, le_byte a 1, le_byte a 2, le_byte a 3⟩ ∧
    le_byte v 0 + 2 ^ 8 * le_byte v 1 = (v % 2 ^ 16).toNat := by
  refine ⟨?_, le_byte_reassemble16 v⟩
  unfold position_control
  rw [ha, hv]

/-- Witness for C10: cap speed `50000/3` rpm at gear ratio 1 converts to
100000 — within 32 bits, far outside 16 — and the frame carries
`100000 % 2^16 = 34464` (bytes `A0 86`) with no error. -/
theorem position_speed_truncated_witness :
    position_control 1 0 (50000 / 3) =
      some ⟨actuate.position_2, 0x00, le_byte 100000 0, le_byte 100000 1,
        le_byte 0 0, le_byte 0 1, le_byte 0 2, le_byte 0 3⟩ ∧
    le_byte 100000 0 + 2 ^ 8 * le_byte 100000 1 = ((100000 : ℤ) % 2 ^ 16).toNat ∧
    ((100000 : ℤ) % 2 ^ 16).toNat = 34464 ∧
    le_byte 100000 0 = 0xA0 ∧ le_byte 100000 1 = 0x86 := by
  have ha : bounds_check ((0 : ℚ) * 1 / deg_per_lsb) = some 0 :=
    bounds_check_eq_some (by norm_num [deg_per_lsb]) (by norm_num) (by norm_num)
  have hv : rpm_to_drc_speed (50000 / 3) 1 dps_per_lsb_angle = some 100000 :=
    bounds_check_eq_some (by norm_num [dps_per_rpm, dps_per_lsb_angle])
      (by norm_num) (by norm_num)
  have h := position_speed_truncated 1 0 (50000 / 3) 0 100000 ha hv
    (Or.inr (by norm_num))
  exact ⟨h.1, h.2, by decide, by decide, by decide⟩

/-- Unfolding equation of the wait loop at an exhausted budget. -/
theorem poll_for_response_zero (m_device_id orig : Nat) (f : feedback_t)
    (sched : List (List message_t)) :
    poll_for_response m_device_id orig f sched 0 =
      if (deliver m_device_id f (sched.headD [])).message_number ≠ orig
      then (deliver m_device_id f (sched.headD []), none)
      else (deliver m_device_id f (sched.headD []), some drc_error.timed_out) :=
  rfl

/-- Unfolding equation of the wait loop with budget remaining. -/
theorem poll_for_response_succ (m_device_id orig : Nat) (f : feedback_t)
    (sched : List (List message_t)) (b : Nat) :
    poll_for_response m_device_id orig f sched (b + 1) =
      if (deliver m_device_id f (sched.headD [])).message_number ≠ orig
      then (deliver m_device_id f (sched.headD []), none)
      else poll_for_response m_device_id orig
        (deliver m_device_id f (sched.headD [])) sched.tail b :=
  rfl

/-- The wait loop returns success at the very first check at which the
message number differs from the recorded one, whatever the budget. -/
theorem poll_for_response_first_success (m_device_id orig : Nat)
    (f : feedback_t) (l : List message_t) (rest : List (List message_t))
    (budget : Nat)
    (h : (deliver m_device_id f l).message_number ≠ orig) :
    poll_for_response m_device_id orig f (l :: rest) budget =
      (deliver m_device_id f l, none) := by
  cases budget with
  | zero =>
    rw [poll_for_response_zero]
    simp only [List.headD_cons]
    rw [if_pos h]
  | succ b =>
    rw [poll_for_response_succ]
    simp only [List.headD_cons]
    rw [if_pos h]

/-- Under a silent schedule (no inbound frame ever delivered) the wait
loop burns its whole budget and fails with the timeout error, leaving the
feedback state untouched. -/
theorem poll_for_response_silent (m_device_id : Nat) :
    ∀ (budget : Nat) (sched : List (List message_t)) (f : feedback_t),
      (∀ l ∈ sched, l = []) →
      poll_for_response m_device_id f.message_number f sched budget =
        (f, some drc_error.timed_out) := by
  intro budget
  induction budget with
  | zero =>
    intro sched f h
    have hd : sched.headD [] = [] := by
      cases sched with
      | nil => rfl
      | cons a t => exact h a (List.mem_cons_self a t)
    rw [poll_for_response_zero, hd]
    have hf : deliver m_device_id f [] = f := rfl
    rw [hf, if_neg (by simp)]
  | succ b ih =>
    intro sched f h
    have hd : sched.headD [] = [] := by
      cases sched with
      | nil => rfl
      | cons a t => exact h a (List.mem_cons_self a t)
    rw [poll_for_response_succ, hd]
    have hf : deliver m_device_id f [] = f := rfl
    rw [hf, if_neg (by simp)]
    exact ih sched.tail f fun l hl => h l (List.mem_of_mem_tail hl)

/-- C6: the send-and-wait helper (i) propagates a transport failure of
the underlying transmit immediately — no polling, feedback untouched;
(ii) under a silent schedule fails with the timeout error once the
configured budget elapses, leaving every feedback field unchanged;
(iii) returns success as soon as the observed `message_number` differs
from the recorded value — already at the first check, whatever the
remaining budget; and (iv) likewise after a silent first poll iteration
once a later delivery changes the counter. -/
theorem send_wait_spec (m_device_id : Nat) (f : feedback_t) (p : Payload)
    (sched : List (List message_t)) (budget : Nat) :
    send m_device_id f p false sched budget =
      ([p], f, some drc_error.transport) ∧
    ((∀ l ∈ sched, l = []) →
      send m_device_id f p true sched budget =
        ([p], f, some drc_error.timed_out)) ∧
    (∀ l rest, sched = l :: rest →
      (deliver m_device_id f l).message_number ≠ f.message_number →
      send m_device_id f p true sched budget =
        ([p], deliver m_device_id f l, none)) ∧
    (∀ l rest b, sched = [] :: l :: rest → budget = b + 1 →
      (deliver m_device_id f l).message_number ≠ f.message_number →
      send m_device_id f p true sched budget =
        ([p], deliver m_device_id f l, none)) := by
  refine ⟨rfl, ?_, ?_, ?_⟩
  · intro h
    simp only [send, if_true]
    rw [poll_for_response_silent m_device_id budget sched f h]
  · intro l rest hsched h
    subst hsched
    simp only [send, if_true]
    rw [poll_for_response_first_success m_device_id f.message_number f l rest
      budget h]
  · intro l rest b hsched hbudget h
    subst hsched
    subst hbudget
    simp only [send, if_true]
    rw [poll_for_response_succ]
    simp only [List.headD_cons, List.tail_cons]
    have hf : deliver m_device_id f [] = f := rfl
    rw [hf, if_neg (by simp)]
    rw [poll_for_response_first_success m_device_id f.message_number f l rest
      b h]

/-- Witness for C6 with device id `0x140` and a `status_2` reply frame:
transport failure propagates with the state untouched; a silent two-slot
schedule times out with the state untouched; a first-poll delivery
succeeds immediately even with budget 0; a delivery on the second poll
iteration succeeds with budget 1. -/
theorem send_wait_spec_witness :
    send 0x140 feedback_t.init (system_control_frame system.off) false
        [[⟨0x140, 8, ⟨0x9C, 0, 0, 0, 0, 0, 0, 0⟩⟩]] 3 =
      ([system_control_frame system.off], feedback_t.init,
        some drc_error.transport) ∧
    send 0x140 feedback_t.init (system_control_frame system.off) true
        [[], []] 5 =
      ([system_control_frame system.off], feedback_t.init,
        some drc_error.timed_out) ∧
    send 0x140 feedback_t.init (system_control_frame system.off) true
        [[⟨0x140, 8, ⟨0x9C, 0, 0, 0, 0, 0, 0, 0⟩⟩]] 0 =
      ([system_control_frame system.off],
        deliver 0x140 feedback_t.init [⟨0x140, 8, ⟨0x9C, 0, 0, 0, 0, 0, 0, 0⟩⟩],
        none) ∧
    send 0x140 feedback_t.init (system_control_frame system.off) true
        [[], [⟨0x140, 8, ⟨0x9C, 0, 0, 0, 0, 0, 0, 0⟩⟩]] 1 =
      ([system_control_frame system.off],
        deliver 0x140 feedback_t.init [⟨0x140, 8, ⟨0x9C, 0, 0, 0, 0, 0, 0, 0⟩⟩],
        none) :=
  ⟨(send_wait_spec 0x140 feedback_t.init (system_control_frame system.off)
      [[⟨0x140, 8, ⟨0x9C, 0, 0, 0, 0, 0, 0, 0⟩⟩]] 3).1,
   (send_wait_spec 0x140 feedback_t.init (system_control_frame system.off)
      [[], []] 5).2.1 (by decide),
   (send_wait_spec 0x140 feedback_t.init (system_control_frame system.off)
      [[⟨0x140, 8, ⟨0x9C, 0, 0, 0, 0, 0, 0, 0⟩⟩]] 0).2.2.1
      [⟨0x140, 8, ⟨0x9C, 0, 0, 0, 0, 0, 0, 0⟩⟩] [] rfl (by decide),
   (send_wait_spec 0x140 feedback_t.init (system_control_frame system.off)
      [[], [⟨0x140, 8, ⟨0x9C, 0, 0, 0, 0, 0, 0, 0⟩⟩]] 1).2.2.2
      [⟨0x140, 8, ⟨0x9C, 0, 0, 0, 0, 0, 0, 0⟩⟩] [] 0 rfl rfl (by decide)⟩

/-- C1 counterexample: a fully successful construction issues as its
FIRST frame the `system::off` command `0x80` — not the `system::stop`
command `0x81` that the spec's opcode table assigns to "stop" — followed
by `system::running` `0x88`; this matches the repository's constructor
test (`drc_v2.test.cpp` lines 95-105), which expects `off` then
`running`. -/
theorem construct_first_frame_not_stop :
    (construct 0x140 true true [[⟨0x140, 8, ⟨0x00, 0, 0, 0, 0, 0, 0, 0⟩⟩]]
        [[⟨0x140, 8, ⟨0x00, 0, 0, 0, 0, 0, 0, 0⟩⟩]] 5).1 =
      [system_control_frame system.off, system_control_frame system.running] ∧
    (construct 0x140 true true [[⟨0x140, 8, ⟨0x00, 0, 0, 0, 0, 0, 0, 0⟩⟩]]
        [[⟨0x140, 8, ⟨0x00, 0, 0, 0, 0, 0, 0, 0⟩⟩]] 5).2.2 = none ∧
    (system_control_frame system.off).b0 = 0x80 ∧
    system.off ≠ system.stop := by
  decide

/-- C1 (amended: the first frame carries the `off` opcode `0x80`, the
power-off command, not `stop` `0x81`): a construction whose two
send-and-wait calls both succeed issues exactly the two system-control
frames `off` then `running`, each the opcode followed by seven zero
bytes, and returns without error; and when the transport's send fails on
the first frame, construction fails with the propagated transport error
and the second frame is never issued. -/
theorem construct_issues_off_then_running (p_device_id : Nat)
    (sched1 sched2 : List (List message_t)) (budget : Nat)
    (f1 f2 : feedback_t)
    (h1 : send p_device_id feedback_t.init (system_control_frame system.off)
        true sched1 budget = ([system_control_frame system.off], f1, none))
    (h2 : send p_device_id f1 (system_control_frame system.running)
        true sched2 budget = ([system_control_frame system.running], f2, none)) :
    construct p_device_id true true sched1 sched2 budget =
      ([system_control_frame system.off, system_control_frame system.running],
        f2, none) ∧
    (∀ ok2 : Bool, construct p_device_id false ok2 sched1 sched2 budget =
      ([system_control_frame system.off], feedback_t.init,
        some drc_error.transport)) := by
  constructor
  · unfold construct
    rw [h1]
    dsimp only
    rw [h2]
    rfl
  · intro ok2
    unfold construct
    rfl

/-- Witness for C1: with a reply frame delivered after each transmit the
constructor sends `80 00 00 00 00 00 00 00` then `88 00 00 00 00 00 00 00`
and succeeds; with the first transmit failing it sends only the first
frame and propagates the transport error. -/
theorem construct_issues_off_then_running_witness :
    construct 0x140 true true [[⟨0x140, 8, ⟨0x9C, 0, 0, 0, 0, 0, 0, 0⟩⟩]]
        [[⟨0x140, 8, ⟨0x9C, 0, 0, 0, 0, 0, 0, 0⟩⟩]] 0 =
      ([system_control_frame system.off, system_control_frame system.running],
        ⟨2, 0, 0, 0, 0, 0, 0, 0⟩, none) ∧
    construct 0x140 false true [[⟨0x140, 8, ⟨0x9C, 0, 0, 0, 0, 0, 0, 0⟩⟩]]
        [[⟨0x140, 8, ⟨0x9C, 0, 0, 0, 0, 0, 0, 0⟩⟩]] 0 =
      ([system_control_frame system.off], feedback_t.init,
        some drc_error.transport) ∧
    system_control_frame system.off = ⟨0x80, 0, 0, 0, 0, 0, 0, 0⟩ ∧
    system_control_frame system.running = ⟨0x88, 0, 0, 0, 0, 0, 0, 0⟩ :=
  ⟨(construct_issues_off_then_running 0x140
      [[⟨0x140, 8, ⟨0x9C, 0, 0, 0, 0, 0, 0, 0⟩⟩]]
      [[⟨0x140, 8, ⟨0x9C, 0, 0, 0, 0, 0, 0, 0⟩⟩]] 0
      ⟨1, 0, 0, 0, 0, 0, 0, 0⟩ ⟨2, 0, 0, 0, 0, 0, 0, 0⟩
      (by decide) (by decide)).1,
   (construct_issues_off_then_running 0x140
      [[⟨0x140, 8, ⟨0x9C, 0, 0, 0, 0, 0, 0, 0⟩⟩]]
      [[⟨0x140, 8, ⟨0x9C, 0, 0, 0, 0, 0, 0, 0⟩⟩]] 0
      ⟨1, 0, 0, 0, 0, 0, 0, 0⟩ ⟨2, 0, 0, 0, 0, 0, 0, 0⟩
      (by decide) (by decide)).2 true,
   by decide, by decide⟩

end RmdDrc
